import Mathlib

/-!
Verification of the steerable approximate-query-processing (AQP) engine
in `src/main.py`.

The engine keeps a single mutable `QueryState` (pagination offset, running
count / sum / sum of squares, completion flag, selected column and
aggregate-function name), fetches pages of at most `CHUNK_SIZE` records
from a remote paginated source, folds them into the running statistics
(`fetch_next_chunk`), and derives an estimate with a 95% confidence
half-width from the accumulated state (`calculate_statistics`).

Shallow embedding choices:
* Python floats are modelled as exact numbers: the mutable accumulators
  (`running_sum`, `running_sum_sq`) are rationals, and the derived
  statistics (which use `np.sqrt`) live in `ℝ`.
* The network fetch is modelled by an explicit `FetchOutcome` argument:
  either a transport/protocol failure (`requests` raising
  `RequestException`, line 143 of the source) or a successful JSON
  response, i.e. a list of records.
* A record is a finite map from column names to values; for the engine
  only the result of `float(record[col])` matters, so a field value is
  `Option ℚ`: `none` when `float` would raise `ValueError`/`TypeError`,
  `some q` when it parses.  A missing key models `KeyError`.
* State-mutating Python functions become functions `QueryState → ... →
  QueryState × result`.
-/

/-- `CHUNK_SIZE = 10000`, the fixed page size (source line 9). -/
def CHUNK_SIZE : Nat := 10000

/-- The global `QueryState` object of `src/main.py` (lines 25–33):
pagination offset, running statistics, completion flag, and the selected
column / aggregate-function name (`None` before the first start). -/
@[ext]
structure QueryState where
  current_offset : Nat
  running_sum : ℚ
  running_count : Nat
  running_sum_sq : ℚ
  is_done : Bool
  column_to_query : Option String
  aggregate_function : Option String
deriving DecidableEq, Repr

/-- The zero state produced by `QueryState.__init__` and by
`QueryState.reset` (source lines 26–42): everything zeroed / unset. -/
def QueryState.init : QueryState :=
  { current_offset := 0
    running_sum := 0
    running_count := 0
    running_sum_sq := 0
    is_done := false
    column_to_query := none
    aggregate_function := none }

/-- Python truthiness of `query_state.column_to_query` as used in the
guard `not query_state.column_to_query` (source line 94): `None` and the
empty string are falsy. -/
def colFalsy : Option String → Bool
  | none => true
  | some s => s.isEmpty

/-- One JSON record returned by the source: a finite association of
column names to values, a value being `some q` when `float(·)` parses it
to the rational `q` and `none` when `float(·)` raises. -/
structure SourceRecord where
  fields : List (String × Option ℚ)
deriving DecidableEq, Repr

/-- The result of `float(record[col])` under the `try`/`except` of source
lines 130–138: `none` on `KeyError` (missing field), `ValueError` or
`TypeError` (non-numeric / wrong type), `some q` on success. -/
def parseValue (r : SourceRecord) (col : String) : Option ℚ :=
  match r.fields.lookup col with
  | some (some q) => some q
  | _ => none

/-- Outcome of the HTTP fetch in `fetch_next_chunk`: a transport/protocol
failure (`requests.exceptions.RequestException`, source line 143), or a
successful response carrying the decoded list of records. -/
inductive FetchOutcome where
  | failure
  | success (data : List SourceRecord)
deriving DecidableEq, Repr

/-- The per-record body of the accumulation loop (source lines 129–138):
parse `record[col]`; on failure `continue`; on success add the value to
`running_sum` and, when the aggregate function is `"AVG"`, its square to
`running_sum_sq`. -/
def foldRecord (agg : Option String) (col : String) (st : QueryState)
    (r : SourceRecord) : QueryState :=
  match parseValue r col with
  | none => st
  | some v =>
      let st1 := { st with running_sum := st.running_sum + v }
      if agg = some "AVG" then
        { st1 with running_sum_sq := st1.running_sum_sq + v ^ 2 }
      else st1

/-- `fetch_next_chunk` (source lines 92–146) with the network call made
explicit.  Returns the updated state together with the Python return
value.  Guard: no fetch when the session is done or no (truthy) column is
selected.  On failure or an empty page: mark done, touch nothing else.
On a non-empty page: `running_count += len(data)` unconditionally, run
the accumulation loop when the aggregate is `"SUM"` or `"AVG"`, then
`current_offset += CHUNK_SIZE`. -/
def fetch_next_chunk (st : QueryState) (outcome : FetchOutcome) :
    QueryState × Bool :=
  if st.is_done || colFalsy st.column_to_query then (st, false)
  else
    let col := st.column_to_query.getD ""
    match outcome with
    | .failure => ({ st with is_done := true }, false)
    | .success data =>
        if data.isEmpty then ({ st with is_done := true }, false)
        else
          let st1 := { st with running_count := st.running_count + data.length }
          let st2 :=
            if st1.aggregate_function = some "SUM" ∨
               st1.aggregate_function = some "AVG" then
              data.foldl (foldRecord st1.aggregate_function col) st1
            else st1
          ({ st2 with current_offset := st2.current_offset + CHUNK_SIZE }, true)

/-- `calculate_statistics` (source lines 56–90): derives
`(estimate, confidence half-width, records processed, done)` from the
state.  Note that the `running_count == 0` branch (line 60) returns the
literal `False` as its last component, not `query_state.is_done`. -/
noncomputable def calculate_statistics (st : QueryState) :
    ℝ × ℝ × ℝ × Bool :=
  if st.running_count = 0 then (0, 0, 0, false)
  else
    let is_done := st.is_done
    let records_processed : ℝ := st.running_count
    if st.aggregate_function = some "AVG" then
      let avg : ℝ := (st.running_sum : ℝ) / (st.running_count : ℝ)
      let variance : ℝ :=
        (st.running_sum_sq : ℝ) / (st.running_count : ℝ) - avg ^ 2
      let variance := if variance < 0 then 0 else variance
      let std_dev := Real.sqrt variance
      let std_error := std_dev / Real.sqrt (st.running_count : ℝ)
      (avg, 1.96 * std_error, records_processed, is_done)
    else if st.aggregate_function = some "SUM" then
      ((st.running_sum : ℝ), 0, records_processed, is_done)
    else if st.aggregate_function = some "COUNT" then
      ((st.running_count : ℝ), 0, records_processed, is_done)
    else
      (0, 0, 0, is_done)

/-- The JSON body returned by the two POST endpoints (pydantic model
`QueryResult`, source lines 50–54). -/
structure QueryResult where
  average : ℝ
  confidence_interval : ℝ
  percent_complete : ℝ
  is_done : Bool

/-- Packing of the `calculate_statistics` tuple into the response body
(source lines 159–160 and 169–170). -/
noncomputable def toResult (t : ℝ × ℝ × ℝ × Bool) : QueryResult :=
  { average := t.1
    confidence_interval := t.2.1
    percent_complete := t.2.2.1
    is_done := t.2.2.2 }

/-- `refine_query` (source lines 162–170): run `fetch_next_chunk` once on
the current state, then derive and return the result. -/
noncomputable def refine_query (st : QueryState) (outcome : FetchOutcome) :
    QueryState × QueryResult :=
  let st1 := (fetch_next_chunk st outcome).1
  (st1, toResult (calculate_statistics st1))

/-- `start_query` (source lines 148–160): reset the state, install the
requested column and aggregate function, fetch one chunk, derive the
result. -/
noncomputable def start_query (column aggregate : String)
    (outcome : FetchOutcome) : QueryState × QueryResult :=
  let st0 := { QueryState.init with
                 column_to_query := some column
                 aggregate_function := some aggregate }
  let st1 := (fetch_next_chunk st0 outcome).1
  (st1, toResult (calculate_statistics st1))

/-! ### Helper lemmas about the accumulation loop and the fetch step -/

/-- The accumulation loop adds, to `running_sum`, the sum of the parsed
values of the page (a record whose value fails to parse contributes `0`)
and, to `running_sum_sq` when the aggregate is `"AVG"`, the sum of their
squares; it touches no other field. -/
lemma foldl_foldRecord (agg : Option String) (col : String)
    (st : QueryState) (data : List SourceRecord) :
    data.foldl (foldRecord agg col) st =
      { st with
          running_sum := st.running_sum +
            (data.map fun r => ((parseValue r col).getD 0)).sum
          running_sum_sq := st.running_sum_sq +
            (if agg = some "AVG" then
              (data.map fun r => ((parseValue r col).getD 0) ^ 2).sum
            else 0) } := by
  induction data generalizing st with
  | nil => ext <;> simp
  | cons r rs ih =>
      simp only [List.foldl_cons, List.map_cons, List.sum_cons, ih]
      unfold foldRecord
      cases h : parseValue r col with
      | none =>
          ext <;> simp [h]
      | some v =>
          by_cases hA : agg = some "AVG" <;>
            ext <;> simp [h, hA] <;> ring

/-- A done session, or one with a falsy (`None`/empty) column: the fetch
step returns `False` without touching the state (source lines 94–95). -/
lemma fetch_next_chunk_noop (st : QueryState) (o : FetchOutcome)
    (h : st.is_done = true ∨ colFalsy st.column_to_query = true) :
    fetch_next_chunk st o = (st, false) := by
  unfold fetch_next_chunk
  rcases h with h | h <;> simp [h]

/-- Transport/protocol failure: the fetch step only sets `is_done`
(source lines 143–146). -/
lemma fetch_next_chunk_failure (st : QueryState)
    (h1 : st.is_done = false) (h2 : colFalsy st.column_to_query = false) :
    fetch_next_chunk st .failure = ({ st with is_done := true }, false) := by
  unfold fetch_next_chunk
  simp [h1, h2]

/-- Empty page: the fetch step only sets `is_done` (source lines
120–123). -/
lemma fetch_next_chunk_empty (st : QueryState)
    (h1 : st.is_done = false) (h2 : colFalsy st.column_to_query = false) :
    fetch_next_chunk st (.success []) = ({ st with is_done := true }, false) := by
  unfold fetch_next_chunk
  simp [h1, h2]

/-- Non-empty page: full characterization of the fetch step.  The count
grows by the page length, the sums grow by the parsed contributions when
the aggregate is `"SUM"`/`"AVG"`, the offset advances by `CHUNK_SIZE`,
and nothing else changes (source lines 124–141). -/
lemma fetch_next_chunk_success (st : QueryState) (data : List SourceRecord)
    (h1 : st.is_done = false) (h2 : colFalsy st.column_to_query = false)
    (hd : data ≠ []) :
    fetch_next_chunk st (.success data) =
      ({ st with
           running_count := st.running_count + data.length
           running_sum := st.running_sum +
             (if st.aggregate_function = some "SUM" ∨
                 st.aggregate_function = some "AVG" then
               (data.map fun r =>
                 ((parseValue r (st.column_to_query.getD "")).getD 0)).sum
             else 0)
           running_sum_sq := st.running_sum_sq +
             (if st.aggregate_function = some "AVG" then
               (data.map fun r =>
                 ((parseValue r (st.column_to_query.getD "")).getD 0) ^ 2).sum
             else 0)
           current_offset := st.current_offset + CHUNK_SIZE }, true) := by
  have hne : data.isEmpty = false := by simpa using hd
  by_cases hA : st.aggregate_function = some "SUM" ∨
      st.aggregate_function = some "AVG"
  · by_cases hAvg : st.aggregate_function = some "AVG"
    · simp [fetch_next_chunk, h1, h2, hne, hA, hAvg, foldl_foldRecord]
    · have hS : st.aggregate_function = some "SUM" := hA.resolve_right hAvg
      simp [fetch_next_chunk, h1, h2, hne, hA, hAvg, hS, foldl_foldRecord]
  · have hS : ¬ st.aggregate_function = some "SUM" := fun h => hA (Or.inl h)
    have hV : ¬ st.aggregate_function = some "AVG" := fun h => hA (Or.inr h)
    simp [fetch_next_chunk, h1, h2, hne, hA, hS, hV]

/-! ### Claim C1 -/

/-- C1 counterexample: the claim says a session with `count == 0` derives
a result whose done component equals the session's own `done` flag, so a
session with `done == true` and `count == 0` (first fetch failed) must
yield `done == true`.  The code (source line 60) returns the literal
`False` in the `count == 0` branch: at the concrete session with
`is_done = true` and `running_count = 0`, the derived done component is
`false` while the session's flag is `true`. -/
theorem C1_counterexample :
    (calculate_statistics { QueryState.init with is_done := true }).2.2.2 = false ∧
    ({ QueryState.init with is_done := true } : QueryState).is_done = true ∧
    ({ QueryState.init with is_done := true } : QueryState).running_count = 0 := by
  refine ⟨?_, rfl, rfl⟩
  simp [calculate_statistics, QueryState.init]

/-- C1 (amended): for every session with `count == 0`,
`calculate_statistics` returns estimate `0.0`, confidence half-width
`0.0`, `recordsProcessed 0`, and a done component that is the literal
`false` — regardless of the aggregate kind and regardless of the
session's own done flag.  In particular a session whose first fetch
failed (`done == true`, `count == 0`) yields a result with
`done == false`. -/
theorem C1_empty_state_result (st : QueryState)
    (h : st.running_count = 0) :
    calculate_statistics st = (0, 0, 0, false) := by
  simp [calculate_statistics, h]

/-- C1 witness: the amended theorem applied to the concrete exhausted
empty session. -/
theorem C1_empty_state_result_witness :
    ({ QueryState.init with is_done := true } : QueryState).running_count = 0 ∧
    calculate_statistics { QueryState.init with is_done := true } = (0, 0, 0, false) :=
  ⟨rfl, C1_empty_state_result { QueryState.init with is_done := true } rfl⟩

/-! ### Claim C8 -/

/-- C8: for every session with `count > 0`, deriving with
`aggregate == "SUM"` returns `(sum, 0, count, session.done)` and with
`aggregate == "COUNT"` returns `(count, 0, count, session.done)`; in both
cases the confidence half-width is exactly `0` (source lines 80–86). -/
theorem C8_sum_count_exact (st : QueryState) (hc : st.running_count ≠ 0) :
    (st.aggregate_function = some "SUM" →
      calculate_statistics st =
        ((st.running_sum : ℝ), 0, (st.running_count : ℝ), st.is_done)) ∧
    (st.aggregate_function = some "COUNT" →
      calculate_statistics st =
        ((st.running_count : ℝ), 0, (st.running_count : ℝ), st.is_done)) := by
  constructor <;> intro hA <;> simp [calculate_statistics, hc, hA]

/-- C8 witness: a concrete SUM session and a concrete COUNT session. -/
theorem C8_sum_count_exact_witness :
    ({ QueryState.init with
         running_count := 3
         running_sum := 60
         aggregate_function := some "SUM" } : QueryState).running_count ≠ 0 ∧
    calculate_statistics
        { QueryState.init with
            running_count := 3
            running_sum := 60
            aggregate_function := some "SUM" } =
      ((60 : ℝ), 0, (3 : ℝ), false) := by
  refine ⟨by decide, ?_⟩
  have h := (C8_sum_count_exact
    { QueryState.init with
        running_count := 3
        running_sum := 60
        aggregate_function := some "SUM" } (by decide)).1 rfl
  simpa using h

/-! ### Claim C3 -/

/-- C3: for every session with `aggregate == "AVG"` and `count > 0`, the
derived result is mean `sum / count`, confidence half-width
`1.96 * sqrt(variance) / sqrt(count)` where the variance
`sumOfSquares / count - mean²` is clamped to a minimum of `0`; and the
confidence half-width is always nonnegative (source lines 67–78). -/
theorem C3_avg_halfwidth (st : QueryState)
    (hA : st.aggregate_function = some "AVG")
    (hc : st.running_count ≠ 0) :
    calculate_statistics st =
      ((st.running_sum : ℝ) / (st.running_count : ℝ),
       1.96 * (Real.sqrt (max ((st.running_sum_sq : ℝ) / (st.running_count : ℝ) -
             ((st.running_sum : ℝ) / (st.running_count : ℝ)) ^ 2) 0) /
           Real.sqrt (st.running_count : ℝ)),
       (st.running_count : ℝ), st.is_done) ∧
    0 ≤ (calculate_statistics st).2.1 := by
  have hv : (if (st.running_sum_sq : ℝ) / (st.running_count : ℝ) <
        ((st.running_sum : ℝ) / (st.running_count : ℝ)) ^ 2 then (0 : ℝ)
      else (st.running_sum_sq : ℝ) / (st.running_count : ℝ) -
        ((st.running_sum : ℝ) / (st.running_count : ℝ)) ^ 2) =
      max ((st.running_sum_sq : ℝ) / (st.running_count : ℝ) -
        ((st.running_sum : ℝ) / (st.running_count : ℝ)) ^ 2) 0 := by
    rcases lt_or_le ((st.running_sum_sq : ℝ) / (st.running_count : ℝ))
        (((st.running_sum : ℝ) / (st.running_count : ℝ)) ^ 2) with h | h
    · rw [if_pos h, max_eq_right (by linarith)]
    · rw [if_neg (not_lt.mpr h), max_eq_left (by linarith)]
  have heq : calculate_statistics st =
      ((st.running_sum : ℝ) / (st.running_count : ℝ),
       1.96 * (Real.sqrt (max ((st.running_sum_sq : ℝ) / (st.running_count : ℝ) -
             ((st.running_sum : ℝ) / (st.running_count : ℝ)) ^ 2) 0) /
           Real.sqrt (st.running_count : ℝ)),
       (st.running_count : ℝ), st.is_done) := by
    simp [calculate_statistics, hc, hA, hv]
  refine ⟨heq, ?_⟩
  rw [heq]
  positivity

/-- C3 witness: the AVG session accumulated from values 2, 4, 6, 8. -/
theorem C3_avg_halfwidth_witness :
    ({ QueryState.init with
         running_count := 4
         running_sum := 20
         running_sum_sq := 120
         aggregate_function := some "AVG" } : QueryState).aggregate_function =
      some "AVG" ∧
    0 ≤ (calculate_statistics
          { QueryState.init with
              running_count := 4
              running_sum := 20
              running_sum_sq := 120
              aggregate_function := some "AVG" }).2.1 :=
  ⟨rfl,
   (C3_avg_halfwidth
      { QueryState.init with
          running_count := 4
          running_sum := 20
          running_sum_sq := 120
          aggregate_function := some "AVG" } rfl (by decide)).2⟩

/-! ### Claim C4 -/

/-- C4: on a transport/protocol failure the fetch step sets
`is_done = true` and leaves `offset`, `count`, `sum` and `sumOfSquares`
unchanged; no exception surfaces (the step returns `False`), and
`refine_query` still returns normally, its result derived from the
accumulated state (source lines 143–146). -/
theorem C4_failure_atomic (st : QueryState)
    (h1 : st.is_done = false) (h2 : colFalsy st.column_to_query = false) :
    (fetch_next_chunk st .failure).1.is_done = true ∧
    (fetch_next_chunk st .failure).1.current_offset = st.current_offset ∧
    (fetch_next_chunk st .failure).1.running_count = st.running_count ∧
    (fetch_next_chunk st .failure).1.running_sum = st.running_sum ∧
    (fetch_next_chunk st .failure).1.running_sum_sq = st.running_sum_sq ∧
    (fetch_next_chunk st .failure).2 = false ∧
    refine_query st .failure =
      ({ st with is_done := true },
       toResult (calculate_statistics { st with is_done := true })) := by
  have hf := fetch_next_chunk_failure st h1 h2
  refine ⟨?_, ?_, ?_, ?_, ?_, ?_, ?_⟩ <;> simp [refine_query, hf]

/-- C4 witness: failure on a fresh session querying column `"price"` with
some accumulated statistics. -/
theorem C4_failure_atomic_witness :
    ({ QueryState.init with
         column_to_query := some "price"
         running_count := 3
         running_sum := 60
         current_offset := 10000 } : QueryState).is_done = false ∧
    (fetch_next_chunk
        { QueryState.init with
            column_to_query := some "price"
            running_count := 3
            running_sum := 60
            current_offset := 10000 } .failure).1.is_done = true :=
  ⟨rfl,
   (C4_failure_atomic
      { QueryState.init with
          column_to_query := some "price"
          running_count := 3
          running_sum := 60
          current_offset := 10000 } rfl (by decide)).1⟩

/-! ### Claim C5 -/

/-- C5: on a session that is done, or in which no column has ever been
selected, `refine_query` performs no fetch: the session state is returned
unchanged and the result is the one derived from the unchanged state, for
every possible fetch outcome; hence repeated refine calls in this
situation are idempotent no-ops (source lines 94–95 and 162–170). -/
theorem C5_refine_noop (st : QueryState) (o : FetchOutcome)
    (h : st.is_done = true ∨ st.column_to_query = none) :
    refine_query st o = (st, toResult (calculate_statistics st)) ∧
    (∀ o2 : FetchOutcome,
      refine_query (refine_query st o).1 o2 = refine_query st o2) := by
  have h' : st.is_done = true ∨ colFalsy st.column_to_query = true := by
    rcases h with h | h
    · exact Or.inl h
    · exact Or.inr (by simp [colFalsy, h])
  have hf := fetch_next_chunk_noop st o h'
  constructor
  · simp [refine_query, hf]
  · intro o2
    simp [refine_query, hf]

/-- C5 witness: refining an exhausted session with a non-empty successful
page outcome changes nothing. -/
theorem C5_refine_noop_witness :
    (({ QueryState.init with is_done := true, running_count := 5 } :
        QueryState).is_done = true ∨
      ({ QueryState.init with is_done := true, running_count := 5 } :
        QueryState).column_to_query = none) ∧
    refine_query { QueryState.init with is_done := true, running_count := 5 }
        (.success [⟨[("price", some 10)]⟩]) =
      ({ QueryState.init with is_done := true, running_count := 5 },
       toResult (calculate_statistics
         { QueryState.init with is_done := true, running_count := 5 })) :=
  ⟨Or.inl rfl,
   (C5_refine_noop { QueryState.init with is_done := true, running_count := 5 }
      (.success [⟨[("price", some 10)]⟩]) (Or.inl rfl)).1⟩

/-! ### Claim C2 -/

/-- Summing `f` of the parsed value with default `0` over a page equals
summing `f` over only the successfully parsed values, provided
`f 0 = 0`: records that fail parsing contribute nothing. -/
lemma sum_map_parse_getD (col : String) (data : List SourceRecord)
    (f : ℚ → ℚ) (hf : f 0 = 0) :
    (data.map fun r => f ((parseValue r col).getD 0)).sum =
      ((data.filterMap fun r => parseValue r col).map f).sum := by
  induction data with
  | nil => simp
  | cons r rs ih => cases h : parseValue r col <;> simp [h, ih, hf]

/-- C2: a successful fetch of a non-empty page of `n` records increases
`running_count` by exactly `n` unconditionally; and when the aggregate is
`"SUM"` or `"AVG"`, `running_sum` (and for `"AVG"` also
`running_sum_sq`) grows only by the contributions of the records whose
column value parses — a record that fails parsing contributes nothing to
the sums yet is included in the `n` added to the count.  The step is a
total function, so no error is raised (source lines 124–138). -/
theorem C2_count_unconditional_parse_skip (st : QueryState)
    (data : List SourceRecord)
    (h1 : st.is_done = false) (h2 : colFalsy st.column_to_query = false)
    (hd : data ≠ []) :
    (fetch_next_chunk st (.success data)).1.running_count =
        st.running_count + data.length ∧
    (st.aggregate_function = some "SUM" ∨ st.aggregate_function = some "AVG" →
      (fetch_next_chunk st (.success data)).1.running_sum =
        st.running_sum +
          ((data.filterMap fun r =>
             parseValue r (st.column_to_query.getD "")).map fun v => v).sum) ∧
    (st.aggregate_function = some "AVG" →
      (fetch_next_chunk st (.success data)).1.running_sum_sq =
        st.running_sum_sq +
          ((data.filterMap fun r =>
             parseValue r (st.column_to_query.getD "")).map fun v => v ^ 2).sum) := by
  rw [fetch_next_chunk_success st data h1 h2 hd]
  refine ⟨rfl, ?_, ?_⟩
  · intro hA
    simp [hA, sum_map_parse_getD (st.column_to_query.getD "") data (fun v => v) rfl]
  · intro hA
    simp [hA, sum_map_parse_getD (st.column_to_query.getD "") data (fun v => v ^ 2) (by norm_num)]

/-- C2 witness: a SUM session fetching a page with one parseable record
(value 10) and one record whose field is missing: the count grows by 2,
the sum by 10 only. -/
theorem C2_count_unconditional_parse_skip_witness :
    ({ QueryState.init with
         column_to_query := some "price"
         aggregate_function := some "SUM" } : QueryState).is_done = false ∧
    ([⟨[("price", some 10)]⟩, ⟨[("other", some 7)]⟩] :
        List SourceRecord) ≠ [] ∧
    (fetch_next_chunk
        { QueryState.init with
            column_to_query := some "price"
            aggregate_function := some "SUM" }
        (.success [⟨[("price", some 10)]⟩, ⟨[("other", some 7)]⟩])).1.running_count =
      0 + 2 :=
  ⟨rfl, by decide,
   (C2_count_unconditional_parse_skip
      { QueryState.init with
          column_to_query := some "price"
          aggregate_function := some "SUM" }
      [⟨[("price", some 10)]⟩, ⟨[("other", some 7)]⟩]
      rfl (by decide) (by decide)).1⟩

/-! ### Claim C6 -/

/-- C6: in every fetch step, the offset never decreases; it advances
exactly when a fetch succeeds with a non-empty page on a live session
with a selected column, and then by exactly `CHUNK_SIZE = 10000`
(regardless of the number `n` of records actually returned); in all
other cases (guard blocks, transport failure, empty page) it is
unchanged (source lines 111–141 of this file, line 140 of the source). -/
theorem C6_offset_discipline (st : QueryState) (o : FetchOutcome) :
    st.current_offset ≤ (fetch_next_chunk st o).1.current_offset ∧
    (∀ data : List SourceRecord, o = .success data → data ≠ [] →
      st.is_done = false → colFalsy st.column_to_query = false →
      (fetch_next_chunk st o).1.current_offset =
        st.current_offset + CHUNK_SIZE) ∧
    (st.is_done = true ∨ colFalsy st.column_to_query = true ∨
        o = .failure ∨ o = .success [] →
      (fetch_next_chunk st o).1.current_offset = st.current_offset) := by
  by_cases hg : st.is_done = true ∨ colFalsy st.column_to_query = true
  · rw [fetch_next_chunk_noop st o hg]
    refine ⟨le_refl _, ?_, fun _ => rfl⟩
    intro data ho hd h1 h2
    rcases hg with hg | hg
    · rw [h1] at hg; exact absurd hg (by simp)
    · rw [h2] at hg; exact absurd hg (by simp)
  · push_neg at hg
    have h1 : st.is_done = false := by
      cases h : st.is_done
      · rfl
      · exact absurd h hg.1
    have h2 : colFalsy st.column_to_query = false := by
      cases h : colFalsy st.column_to_query
      · rfl
      · exact absurd h hg.2
    cases o with
    | failure =>
        rw [fetch_next_chunk_failure st h1 h2]
        refine ⟨le_refl _, ?_, fun _ => rfl⟩
        intro data ho
        simp at ho
    | success data =>
        cases data with
        | nil =>
            rw [fetch_next_chunk_empty st h1 h2]
            refine ⟨le_refl _, ?_, fun _ => rfl⟩
            intro data' ho hd
            cases ho
            exact absurd rfl hd
        | cons r rs =>
            rw [fetch_next_chunk_success st (r :: rs) h1 h2 (by simp)]
            refine ⟨Nat.le_add_right _ _, fun _ _ _ _ _ => rfl, ?_⟩
            intro h
            rcases h with h | h | h | h
            · rw [h1] at h; exact absurd h (by simp)
            · rw [h2] at h; exact absurd h (by simp)
            · exact absurd h (by simp)
            · exact absurd h (by simp)

/-- C6 witness: a live SUM session with one-record page advances the
offset from 0 to exactly `CHUNK_SIZE`. -/
theorem C6_offset_discipline_witness :
    ([⟨[("price", some 10)]⟩] : List SourceRecord) ≠ [] ∧
    (fetch_next_chunk
        { QueryState.init with
            column_to_query := some "price"
            aggregate_function := some "SUM" }
        (.success [⟨[("price", some 10)]⟩])).1.current_offset =
      0 + CHUNK_SIZE :=
  ⟨by decide,
   (C6_offset_discipline
      { QueryState.init with
          column_to_query := some "price"
          aggregate_function := some "SUM" }
      (.success [⟨[("price", some 10)]⟩])).2.1
     [⟨[("price", some 10)]⟩] rfl (by decide) rfl (by decide)⟩

/-! ### Claim C7 -/

/-- The spec-side description of `Start`: reset the session to its zero
state, install `column` and `aggregate` from the inputs, then perform
exactly one `Refine` call. -/
noncomputable def reset_set_then_refine (column aggregate : String)
    (outcome : FetchOutcome) : QueryState × QueryResult :=
  refine_query
    { QueryState.init with
        column_to_query := some column
        aggregate_function := some aggregate }
    outcome

/-- C7: for every column, aggregate input and fetch outcome,
`start_query` produces exactly the same final session state and the same
returned result as resetting to the zero state, setting column and
aggregate, and performing one `refine_query` call (source lines 148–160
versus 162–170). -/
theorem C7_start_is_reset_then_refine (column aggregate : String)
    (o : FetchOutcome) :
    start_query column aggregate o = reset_set_then_refine column aggregate o :=
  rfl

/-! ### Claim C9 -/

/-- The state reached after a sequence of `refine_query` calls with the
given fetch outcomes (the step relation generated by Refine). -/
noncomputable def refineIter (st : QueryState) (os : List FetchOutcome) :
    QueryState :=
  os.foldl (fun s o => (refine_query s o).1) st

/-- C9: the done flag is monotonic under the step relation generated by
Refine: once `is_done` is `true`, no sequence of further refine calls
(with any fetch outcomes) ever clears it — the session state in fact
stays identical; only the full reset inside a new `start_query` clears
the flag (source lines 94–95 and 35–42). -/
theorem C9_done_monotonic (st : QueryState) (os : List FetchOutcome)
    (h : st.is_done = true) :
    (refineIter st os).is_done = true := by
  induction os generalizing st with
  | nil => simpa [refineIter] using h
  | cons o os ih =>
      have hstep : (refine_query st o).1 = st := by
        simp [refine_query, fetch_next_chunk_noop st o (Or.inl h)]
      show (refineIter (refine_query st o).1 os).is_done = true
      rw [hstep]
      exact ih st h

/-- C9 witness: an exhausted session stays exhausted across a failure
outcome followed by a successful non-empty page outcome. -/
theorem C9_done_monotonic_witness :
    ({ QueryState.init with is_done := true } : QueryState).is_done = true ∧
    (refineIter { QueryState.init with is_done := true }
        [.failure, .success [⟨[("price", some 10)]⟩]]).is_done = true :=
  ⟨rfl,
   C9_done_monotonic { QueryState.init with is_done := true }
     [.failure, .success [⟨[("price", some 10)]⟩]] rfl⟩

/-! ### Claim C10 -/

/-- C10 (implicit behavior): on a live session with a selected column and
an aggregate kind other than `"SUM"`, `"COUNT"` and `"AVG"` (e.g. a
lowercase or misspelled string), `refine_query` still performs the fetch:
on a non-empty page the count grows by the page length and the offset
advances by `CHUNK_SIZE` — pages keep being consumed on every call —
while the returned result stays `(0.0, 0.0, 0, session.done)`, so the
accumulated count is never visible to the caller (source lines 94–141
and 88–90). -/
theorem C10_unknown_aggregate_consumes_pages (st : QueryState)
    (data : List SourceRecord)
    (h1 : st.is_done = false) (h2 : colFalsy st.column_to_query = false)
    (hS : st.aggregate_function ≠ some "SUM")
    (hC : st.aggregate_function ≠ some "COUNT")
    (hA : st.aggregate_function ≠ some "AVG")
    (hd : data ≠ []) :
    (refine_query st (.success data)).1.running_count =
        st.running_count + data.length ∧
    st.running_count < (refine_query st (.success data)).1.running_count ∧
    (refine_query st (.success data)).1.current_offset =
        st.current_offset + CHUNK_SIZE ∧
    (refine_query st (.success data)).1.is_done = st.is_done ∧
    (refine_query st (.success data)).2 =
      { average := 0
        confidence_interval := 0
        percent_complete := 0
        is_done := st.is_done } := by
  have hfetch := fetch_next_chunk_success st data h1 h2 hd
  have hlen : 0 < data.length := List.length_pos.mpr hd
  have hst1 : (refine_query st (.success data)).1 =
      (fetch_next_chunk st (.success data)).1 := rfl
  refine ⟨?_, ?_, ?_, ?_, ?_⟩
  · rw [hst1, hfetch]
  · rw [hst1, hfetch]
    simpa using hlen
  · rw [hst1, hfetch]
  · rw [hst1, hfetch, h1]
  · show toResult (calculate_statistics (fetch_next_chunk st (.success data)).1) = _
    rw [hfetch]
    have hcount : st.running_count + data.length ≠ 0 := by omega
    simp [calculate_statistics, toResult, hcount, hS, hC, hA, h1]

/-- C10 witness: a live session with aggregate `"avg"` (lowercase)
consuming a one-record page. -/
theorem C10_unknown_aggregate_consumes_pages_witness :
    ({ QueryState.init with
         column_to_query := some "price"
         aggregate_function := some "avg" } : QueryState).aggregate_function ≠
      some "AVG" ∧
    (refine_query
        { QueryState.init with
            column_to_query := some "price"
            aggregate_function := some "avg" }
        (.success [⟨[("price", some 10)]⟩])).1.current_offset =
      0 + CHUNK_SIZE :=
  ⟨by decide,
   (C10_unknown_aggregate_consumes_pages
      { QueryState.init with
          column_to_query := some "price"
          aggregate_function := some "avg" }
      [⟨[("price", some 10)]⟩]
      rfl (by decide) (by decide) (by decide) (by decide) (by decide)).2.2.1⟩
